import Mathlib

/-!
Shallow embedding of `app.py` (AI Music Recommendation Bot): the Spotify
recommendation lookup `spotify_rec`, the streaming chat orchestrator
`respond`, and the cancellation control `cancel_inference`, together with
the event traces (metric increments, provider calls, yielded snapshots)
they produce.  External collaborators (the Spotify client, the two
generation backends, the global `stop_inference` flag read at each loop
check) are modelled as explicit parameters.
-/

namespace MLApp

/-- Chat message with a role and text content, as assembled in `respond`
(app.py lines 110-118). -/
structure Message where
  role : String
  content : String
  deriving DecidableEq, Repr

/-- One item of `results['tracks']['items']` from `sp.search`: the only field
`spotify_rec` reads is `uri` (app.py line 53). -/
structure SearchItem where
  uri : String
  deriving DecidableEq, Repr

/-- One track of `sp.recommendations(...)['tracks']`: `spotify_rec` reads its
`name` and its list of artist names (app.py line 62). -/
structure SpotTrack where
  name : String
  artists : List String
  deriving DecidableEq, Repr

/-- The Spotify provider, as the two network operations `spotify_rec` invokes:
`search` keyed by the query string, and `recs` keyed by the seed track uri. -/
structure Provider where
  search : String → List SearchItem
  recs : String → List SpotTrack

/-- Observable events of a call: Prometheus counter increments, provider-client
construction, network calls, and the snapshots yielded by the `respond`
generator (the full chat list handed to the presentation layer). -/
inductive Ev where
  | mkClient
  | netSearch
  | netRecs
  | failedInc
  | successInc
  | processedInc
  | userInteraction
  | cancelledInc
  | snapshot (chat : List (String × String))
  deriving DecidableEq, Repr

/-- Python truthiness test `not s` for an optional string credential:
`True` exactly on `None` and on the empty string (app.py line 39). -/
def pyFalsy : Option String → Bool
  | none => true
  | some s => s.isEmpty

/-- Rendering of one recommended track, the comprehension body
`f"{track['name']} by {track['artists'][0]['name']}"` of app.py line 62
(`headD ""` stands for the `[0]` access, total on the empty list). -/
def trackLine (t : SpotTrack) : String :=
  t.name ++ " by " ++ t.artists.headD ""

/-- Embedding of `spotify_rec(track_name, artist, client_id, client_secret)`
(app.py lines 25-67): returns the result string together with the ordered
trace of events the call performs. -/
def spotify_rec (p : Provider) (track_name artist : String)
    (client_id client_secret : Option String) : String × List Ev :=
  if pyFalsy client_id || pyFalsy client_secret then
    ("Please provide Spotify API credentials.", [Ev.failedInc])
  else
    match p.search ("track:" ++ track_name ++ " artist:" ++ artist) with
    | [] =>
        ("No tracks found for the given track name and artist.",
          [Ev.mkClient, Ev.netSearch, Ev.failedInc])
    | item :: _ =>
        match p.recs item.uri with
        | [] =>
            ("No recommendations found.",
              [Ev.mkClient, Ev.netSearch, Ev.netRecs, Ev.failedInc])
        | rec0 :: recRest =>
            (String.intercalate "\n" ((rec0 :: recRest).map trackLine),
              [Ev.mkClient, Ev.netSearch, Ev.netRecs, Ev.successInc,
                Ev.processedInc])

/-- The final user message of `respond` (app.py line 117), embedding the seed
track, the seed artist and the recommendation (or failure) text. -/
def userPrompt (track_name artist recommendations : String) : String :=
  "I like '" ++ track_name ++ "' by " ++ artist ++
    ". Here are some Spotify recommendations:\n" ++ recommendations ++
    "\n\nCan you tell me more about these songs and suggest why I might enjoy them?"

/-- The fixed header block initializing the response accumulator
(app.py line 120). -/
def respondHeader (track_name artist recommendations : String) : String :=
  "**Spotify Recommendations based on '" ++ track_name ++ "' by " ++ artist ++
    ":**\n" ++ recommendations ++ "\n\n"

/-- The cancellation marker appended on early exit (app.py lines 133, 154). -/
def cancelMarker : String := "\n\n*Inference cancelled.*"

/-- The configuration-error notice appended when the local pipeline symbol is
undefined (app.py line 142). -/
def localErrMsg : String :=
  "*Error: Local model not configured. Please uncomment the torch/transformers imports and pipeline initialization in app.py, or uncheck 'Use Local Model'.*"

/-- One iteration of the history loop of `respond` (app.py lines 111-115):
append a user message for a truthy user side, then an assistant message for a
truthy assistant side. -/
def addTurn (acc : List Message) (val : String × String) : List Message :=
  let acc := if val.1 = "" then acc else acc ++ [⟨"user", val.1⟩]
  if val.2 = "" then acc else acc ++ [⟨"assistant", val.2⟩]

/-- The message list `respond` builds (app.py lines 110-118): system message,
the history loop, then the final user message. -/
def buildMessages (system_message : String) (history : List (String × String))
    (user_message : String) : List Message :=
  (history.foldl addTurn [⟨"system", system_message⟩]) ++
    [⟨"user", user_message⟩]

/-- The chat label of every yielded snapshot pair,
`f"{track_name} by {artist}"` (app.py lines 134, 138, 143, 155, 160). -/
def chatLabel (track_name artist : String) : String :=
  track_name ++ " by " ++ artist

/-- The local-model streaming loop of `respond` (app.py lines 126-138).  Each
list element pairs the value of the global `stop_inference` flag observed at
that iteration's check with the chunk's text
`output['generated_text'][-1]['content']`. -/
def localLoop (hist : List (String × String)) (label : String) :
    String → List (Bool × String) → List Ev
  | _, [] => []
  | response, (stop, out) :: rest =>
    if stop then
      [Ev.cancelledInc,
        Ev.snapshot (hist ++ [(label, response ++ cancelMarker)])]
    else
      Ev.snapshot (hist ++ [(label, response ++ out)]) ::
        localLoop hist label (response ++ out) rest

/-- The API streaming loop of `respond` (app.py lines 147-160).  Each list
element pairs the observed `stop_inference` value with
`message_chunk.choices[0].delta.content`, which may be absent (`None`). -/
def apiLoop (hist : List (String × String)) (label : String) :
    String → List (Bool × Option String) → List Ev
  | _, [] => []
  | response, (stop, chunk) :: rest =>
    if stop then
      [Ev.cancelledInc,
        Ev.snapshot (hist ++ [(label, response ++ cancelMarker)])]
    else
      let response2 := match chunk with
        | some t => if t = "" then response else response ++ t
        | none => response
      Ev.snapshot (hist ++ [(label, response2)]) ::
        apiLoop hist label response2 rest

/-- The generation backends available to `respond`: whether the local `pipe`
symbol is defined (it is commented out in app.py line 14), and the two token
streams, each a function of the message list and `max_tokens`, with the
`stop_inference` observation attached to each chunk. -/
structure Backend where
  localDefined : Bool
  localStream : List Message → Nat → List (Bool × String)
  apiStream : List Message → Nat → List (Bool × Option String)

/-- The arguments of `respond` (app.py lines 75-83). -/
structure RespondArgs where
  track_name : String
  artist : String
  history : Option (List (String × String))
  system_message : String
  max_tokens : Nat
  use_local_model : Bool
  client_id : Option String
  client_secret : Option String

/-- Embedding of the generator `respond` (app.py lines 74-160): the ordered
trace of events (counter increments, provider events via `spotify_rec`, and
yielded snapshots) of one call, given the provider and the backends. -/
def respond (p : Provider) (b : Backend) (a : RespondArgs) : List Ev :=
  let hist := a.history.getD []
  let sr := spotify_rec p a.track_name a.artist a.client_id a.client_secret
  let messages := buildMessages a.system_message hist
    (userPrompt a.track_name a.artist sr.1)
  let label := chatLabel a.track_name a.artist
  let response := respondHeader a.track_name a.artist sr.1
  Ev.userInteraction :: sr.2 ++
    (if a.use_local_model then
      if b.localDefined then
        localLoop hist label response (b.localStream messages a.max_tokens)
      else
        [Ev.failedInc,
          Ev.snapshot (hist ++ [(label, response ++ localErrMsg)])]
    else
      apiLoop hist label response (b.apiStream messages a.max_tokens))

/-- Embedding of `cancel_inference()` (app.py lines 163-166) as a transformer
of the global `stop_inference` flag: it sets the flag to `True`. -/
def cancel_inference (stop_inference : Bool) : Bool :=
  let _ := stop_inference
  true

/-- Number of occurrences of one event in a trace. -/
def countEv (e : Ev) : List Ev → Nat
  | [] => 0
  | x :: rest => (if x = e then 1 else 0) + countEv e rest

/-- Number of snapshots in a trace. -/
def snapCount : List Ev → Nat
  | [] => 0
  | Ev.snapshot _ :: rest => 1 + snapCount rest
  | _ :: rest => snapCount rest

/-- The response texts of the snapshots of a trace, in emission order: the
second component of the last chat pair of each yielded list. -/
def snapResponses : List Ev → List String
  | [] => []
  | Ev.snapshot chat :: rest => (chat.getLastD ("", "")).2 :: snapResponses rest
  | _ :: rest => snapResponses rest

/-- String `s` is a prefix of string `t`. -/
def strPre (s t : String) : Prop := ∃ u, s ++ u = t

/-- Every element of the list extends the previous one (the first extends
`s`): the append-monotonicity of a snapshot-response sequence. -/
def chainFrom (s : String) : List String → Prop
  | [] => True
  | t :: rest => strPre s t ∧ chainFrom t rest

/-- Declarative shape of the messages contributed by one ChatTurn, following
the spec's words: one user message per non-empty user side, then one
assistant message per non-empty assistant side, empty sides omitted. -/
def turnMessages (val : String × String) : List Message :=
  (if val.1 = "" then [] else [⟨"user", val.1⟩]) ++
    (if val.2 = "" then [] else [⟨"assistant", val.2⟩])

/-- Concrete provider used to instantiate theorems with hypotheses. -/
def sampleProvider : Provider where
  search := fun _ => [⟨"spotify:track:seed"⟩]
  recs := fun _ => [⟨"Song A", ["Artist A", "Other"]⟩, ⟨"Song B", ["Artist B"]⟩]

/-- The text carried by an API chunk: its `delta.content` when present, the
empty string when the field is `None`. -/
def chunkText : Option String → String
  | none => ""
  | some t => t

/-- One `spotify_rec` call's inputs, for reasoning about sequences of
lookups. -/
structure RecCall where
  p : Provider
  track_name : String
  artist : String
  client_id : Option String
  client_secret : Option String

/-- The event trace of one `spotify_rec` call. -/
def recCallTrace (c : RecCall) : List Ev :=
  (spotify_rec c.p c.track_name c.artist c.client_id c.client_secret).2

lemma countEv_append (e : Ev) (l1 l2 : List Ev) :
    countEv e (l1 ++ l2) = countEv e l1 + countEv e l2 := by
  induction l1 with
  | nil => simp [countEv]
  | cons x t ih => simp [countEv, ih]; omega

lemma snapCount_append (l1 l2 : List Ev) :
    snapCount (l1 ++ l2) = snapCount l1 + snapCount l2 := by
  induction l1 with
  | nil => simp [snapCount]
  | cons x t ih =>
      cases x
      case snapshot => simp [snapCount, ih]; omega
      all_goals simp [snapCount, ih]

lemma snapResponses_append (l1 l2 : List Ev) :
    snapResponses (l1 ++ l2) = snapResponses l1 ++ snapResponses l2 := by
  induction l1 with
  | nil => simp [snapResponses]
  | cons x t ih => cases x <;> simp [snapResponses, ih]

/-- The four literal event traces a `spotify_rec` call can produce. -/
lemma spotify_rec_trace_cases (p : Provider) (track_name artist : String)
    (client_id client_secret : Option String) :
    (spotify_rec p track_name artist client_id client_secret).2 = [Ev.failedInc] ∨
    (spotify_rec p track_name artist client_id client_secret).2 =
      [Ev.mkClient, Ev.netSearch, Ev.failedInc] ∨
    (spotify_rec p track_name artist client_id client_secret).2 =
      [Ev.mkClient, Ev.netSearch, Ev.netRecs, Ev.failedInc] ∨
    (spotify_rec p track_name artist client_id client_secret).2 =
      [Ev.mkClient, Ev.netSearch, Ev.netRecs, Ev.successInc, Ev.processedInc] := by
  unfold spotify_rec
  split
  · left; rfl
  · split
    · right; left; rfl
    · split
      · right; right; left; rfl
      · right; right; right; rfl

/-- The history loop of `respond` refines the declarative flatten. -/
lemma foldl_addTurn (history : List (String × String)) (acc : List Message) :
    history.foldl addTurn acc = acc ++ history.flatMap turnMessages := by
  induction history generalizing acc with
  | nil => simp
  | cons v t ih =>
      rw [List.foldl_cons, ih, List.flatMap_cons]
      unfold addTurn turnMessages
      by_cases h1 : v.1 = "" <;> by_cases h2 : v.2 = "" <;> simp [h1, h2]

/-- C2: for every credential pair with an empty or absent component,
`spotify_rec` returns exactly the failure text
"Please provide Spotify API credentials.", increments only the failure
counter, and performs no client construction and no network call. -/
theorem spotify_rec_missing_credentials (p : Provider) (track_name artist : String)
    (client_id client_secret : Option String)
    (h : (pyFalsy client_id || pyFalsy client_secret) = true) :
    spotify_rec p track_name artist client_id client_secret =
      ("Please provide Spotify API credentials.", [Ev.failedInc]) ∧
    countEv Ev.mkClient (spotify_rec p track_name artist client_id client_secret).2 = 0 ∧
    countEv Ev.netSearch (spotify_rec p track_name artist client_id client_secret).2 = 0 ∧
    countEv Ev.netRecs (spotify_rec p track_name artist client_id client_secret).2 = 0 ∧
    countEv Ev.failedInc (spotify_rec p track_name artist client_id client_secret).2 = 1 := by
  have he : spotify_rec p track_name artist client_id client_secret =
      ("Please provide Spotify API credentials.", [Ev.failedInc]) := by
    unfold spotify_rec
    rw [h]
    simp
  rw [he]
  exact ⟨rfl, by decide, by decide, by decide, by decide⟩

/-- Witness for `spotify_rec_missing_credentials` at a concrete empty
client id. -/
theorem spotify_rec_missing_credentials_witness :
    ((pyFalsy (some "") || pyFalsy (some "secret")) = true) ∧
    (spotify_rec sampleProvider "Shape of You" "Ed Sheeran" (some "") (some "secret") =
      ("Please provide Spotify API credentials.", [Ev.failedInc]) ∧
    countEv Ev.mkClient (spotify_rec sampleProvider "Shape of You" "Ed Sheeran" (some "") (some "secret")).2 = 0 ∧
    countEv Ev.netSearch (spotify_rec sampleProvider "Shape of You" "Ed Sheeran" (some "") (some "secret")).2 = 0 ∧
    countEv Ev.netRecs (spotify_rec sampleProvider "Shape of You" "Ed Sheeran" (some "") (some "secret")).2 = 0 ∧
    countEv Ev.failedInc (spotify_rec sampleProvider "Shape of You" "Ed Sheeran" (some "") (some "secret")).2 = 1) :=
  ⟨by decide,
    spotify_rec_missing_credentials sampleProvider "Shape of You" "Ed Sheeran"
      (some "") (some "secret") (by decide)⟩

/-- C5: every successful lookup returns the newline-join of one entry per
recommended track in provider order (the map preserves order, length and
duplicates), each entry exactly "title by artist" with the first-listed
artist. -/
theorem spotify_rec_success_format (p : Provider) (track_name artist : String)
    (client_id client_secret : Option String) (item : SearchItem)
    (items : List SearchItem) (recs : List SpotTrack)
    (hcred : (pyFalsy client_id || pyFalsy client_secret) = false)
    (hsearch : p.search ("track:" ++ track_name ++ " artist:" ++ artist) = item :: items)
    (hrecs : p.recs item.uri = recs)
    (hne : recs ≠ []) :
    (spotify_rec p track_name artist client_id client_secret).1 =
      String.intercalate "\n" (recs.map trackLine) ∧
    (recs.map trackLine).length = recs.length ∧
    (∀ t ∈ recs, ∀ ha : t.artists ≠ [],
      trackLine t = t.name ++ " by " ++ t.artists.head ha) := by
  rcases recs with _ | ⟨r, rs⟩
  · exact absurd rfl hne
  · refine ⟨?_, by simp, ?_⟩
    · unfold spotify_rec
      rw [hcred, hsearch]
      simp [hrecs]
    · intro t _ ha
      unfold trackLine
      rcases t with ⟨n, _ | ⟨a0, arest⟩⟩
      · exact absurd rfl ha
      · rfl

/-- Witness for `spotify_rec_success_format` on the concrete sample
provider. -/
theorem spotify_rec_success_format_witness :
    ((pyFalsy (some "id") || pyFalsy (some "secret")) = false) ∧
    (sampleProvider.search ("track:" ++ "Shape of You" ++ " artist:" ++ "Ed Sheeran") =
      SearchItem.mk "spotify:track:seed" :: []) ∧
    (sampleProvider.recs (SearchItem.mk "spotify:track:seed").uri =
      [SpotTrack.mk "Song A" ["Artist A", "Other"], SpotTrack.mk "Song B" ["Artist B"]]) ∧
    ([SpotTrack.mk "Song A" ["Artist A", "Other"], SpotTrack.mk "Song B" ["Artist B"]] ≠
      ([] : List SpotTrack)) ∧
    ((spotify_rec sampleProvider "Shape of You" "Ed Sheeran" (some "id") (some "secret")).1 =
      String.intercalate "\n"
        ([SpotTrack.mk "Song A" ["Artist A", "Other"], SpotTrack.mk "Song B" ["Artist B"]].map trackLine) ∧
    ([SpotTrack.mk "Song A" ["Artist A", "Other"], SpotTrack.mk "Song B" ["Artist B"]].map trackLine).length =
      [SpotTrack.mk "Song A" ["Artist A", "Other"], SpotTrack.mk "Song B" ["Artist B"]].length ∧
    (∀ t ∈ [SpotTrack.mk "Song A" ["Artist A", "Other"], SpotTrack.mk "Song B" ["Artist B"]],
      ∀ ha : t.artists ≠ [],
      trackLine t = t.name ++ " by " ++ t.artists.head ha)) :=
  ⟨by decide, rfl, rfl, by simp,
    spotify_rec_success_format sampleProvider "Shape of You" "Ed Sheeran"
      (some "id") (some "secret") ⟨"spotify:track:seed"⟩ []
      [⟨"Song A", ["Artist A", "Other"]⟩, ⟨"Song B", ["Artist B"]⟩]
      (by decide) rfl rfl (by simp)⟩

/-- C3: the message list `respond` assembles is exactly one system message
carrying the system prompt, then the flattening of the history (one user
message per non-empty user side, one assistant message per non-empty
assistant side, in order), then one final user message embedding the seed
track, the seed artist and the recommendation text with the elaboration
request. -/
theorem respond_message_assembly (system_message track_name artist recommendations : String)
    (history : List (String × String)) :
    buildMessages system_message history (userPrompt track_name artist recommendations) =
      Message.mk "system" system_message ::
        (history.flatMap turnMessages ++
          [Message.mk "user" (userPrompt track_name artist recommendations)]) := by
  unfold buildMessages
  rw [foldl_addTurn]
  simp

lemma snapResponses_spot (p : Provider) (track_name artist : String)
    (client_id client_secret : Option String) :
    snapResponses (spotify_rec p track_name artist client_id client_secret).2 = [] := by
  rcases spotify_rec_trace_cases p track_name artist client_id client_secret with
    h | h | h | h <;> rw [h] <;> rfl

lemma snapCount_spot (p : Provider) (track_name artist : String)
    (client_id client_secret : Option String) :
    snapCount (spotify_rec p track_name artist client_id client_secret).2 = 0 := by
  rcases spotify_rec_trace_cases p track_name artist client_id client_secret with
    h | h | h | h <;> rw [h] <;> rfl

lemma countEv_ui_spot (p : Provider) (track_name artist : String)
    (client_id client_secret : Option String) :
    countEv Ev.userInteraction (spotify_rec p track_name artist client_id client_secret).2 = 0 := by
  rcases spotify_rec_trace_cases p track_name artist client_id client_secret with
    h | h | h | h <;> rw [h] <;> rfl

lemma countEv_ui_localLoop (hist : List (String × String)) (label : String) :
    ∀ (chunks : List (Bool × String)) (response : String),
    countEv Ev.userInteraction (localLoop hist label response chunks) = 0 := by
  intro chunks
  induction chunks with
  | nil => intro response; rfl
  | cons c rest ih =>
      intro response
      obtain ⟨stop, out⟩ := c
      cases stop
      · simp [localLoop, countEv, ih]
      · simp [localLoop, countEv]

lemma countEv_ui_apiLoop (hist : List (String × String)) (label : String) :
    ∀ (chunks : List (Bool × Option String)) (response : String),
    countEv Ev.userInteraction (apiLoop hist label response chunks) = 0 := by
  intro chunks
  induction chunks with
  | nil => intro response; rfl
  | cons c rest ih =>
      intro response
      obtain ⟨stop, chunk⟩ := c
      cases stop
      · simp [apiLoop, countEv, ih]
      · simp [apiLoop, countEv]

lemma snapResponses_localLoop (hist : List (String × String)) (label : String) :
    ∀ (chunks : List (Bool × String)) (response : String),
    chainFrom response (snapResponses (localLoop hist label response chunks)) := by
  intro chunks
  induction chunks with
  | nil => intro response; exact trivial
  | cons c rest ih =>
      intro response
      obtain ⟨stop, out⟩ := c
      cases stop
      · simp only [localLoop, Bool.false_eq_true, if_false, snapResponses,
          List.getLastD_concat, chainFrom]
        exact ⟨⟨out, rfl⟩, ih (response ++ out)⟩
      · simp only [localLoop, if_true, snapResponses, List.getLastD_concat, chainFrom]
        exact ⟨⟨cancelMarker, rfl⟩, trivial⟩

lemma snapResponses_apiLoop (hist : List (String × String)) (label : String) :
    ∀ (chunks : List (Bool × Option String)) (response : String),
    chainFrom response (snapResponses (apiLoop hist label response chunks)) := by
  intro chunks
  induction chunks with
  | nil => intro response; exact trivial
  | cons c rest ih =>
      intro response
      obtain ⟨stop, chunk⟩ := c
      cases stop
      · rcases chunk with _ | t
        · simp only [apiLoop, Bool.false_eq_true, if_false, snapResponses,
            List.getLastD_concat, chainFrom]
          exact ⟨⟨"", String.append_empty response⟩, ih response⟩
        · by_cases ht : t = ""
          · simp only [apiLoop, Bool.false_eq_true, if_false, ht, if_true,
              snapResponses, List.getLastD_concat, chainFrom]
            exact ⟨⟨"", String.append_empty response⟩, ih response⟩
          · simp only [apiLoop, Bool.false_eq_true, if_false, ht, snapResponses,
              List.getLastD_concat, chainFrom]
            exact ⟨⟨t, rfl⟩, ih (response ++ t)⟩
      · simp only [apiLoop, if_true, snapResponses, List.getLastD_concat, chainFrom]
        exact ⟨⟨cancelMarker, rfl⟩, trivial⟩

/-- C1: a chunk-processing step that observes the cancellation flag set
appends the cancellation marker, increments the cancelled counter, emits
exactly that one final snapshot and terminates: nothing of the remaining
stream (in particular the current chunk's token) is consumed, in the
local-model loop, in the API loop, and end-to-end through `respond` in
either branch. -/
theorem respond_cancellation :
    (∀ (hist : List (String × String)) (label response out : String)
        (rest : List (Bool × String)),
      localLoop hist label response ((true, out) :: rest) =
        [Ev.cancelledInc,
          Ev.snapshot (hist ++ [(label, response ++ cancelMarker)])]) ∧
    (∀ (hist : List (String × String)) (label response : String)
        (chunk : Option String) (rest : List (Bool × Option String)),
      apiLoop hist label response ((true, chunk) :: rest) =
        [Ev.cancelledInc,
          Ev.snapshot (hist ++ [(label, response ++ cancelMarker)])]) ∧
    (∀ (p : Provider) (b : Backend) (a : RespondArgs) (chunk : Option String)
        (rest : List (Bool × Option String)),
      respond p { b with apiStream := fun _ _ => (true, chunk) :: rest }
          { a with use_local_model := false } =
        Ev.userInteraction ::
          (spotify_rec p a.track_name a.artist a.client_id a.client_secret).2 ++
          [Ev.cancelledInc,
            Ev.snapshot ((a.history.getD []) ++
              [(chatLabel a.track_name a.artist,
                respondHeader a.track_name a.artist
                  (spotify_rec p a.track_name a.artist a.client_id a.client_secret).1 ++
                  cancelMarker)])]) ∧
    (∀ (p : Provider) (b : Backend) (a : RespondArgs) (out : String)
        (rest : List (Bool × String)),
      respond p
          { b with localDefined := true, localStream := fun _ _ => (true, out) :: rest }
          { a with use_local_model := true } =
        Ev.userInteraction ::
          (spotify_rec p a.track_name a.artist a.client_id a.client_secret).2 ++
          [Ev.cancelledInc,
            Ev.snapshot ((a.history.getD []) ++
              [(chatLabel a.track_name a.artist,
                respondHeader a.track_name a.artist
                  (spotify_rec p a.track_name a.artist a.client_id a.client_secret).1 ++
                  cancelMarker)])]) := by
  refine ⟨fun hist label response out rest => rfl,
    fun hist label response chunk rest => rfl,
    fun p b a chunk rest => rfl,
    fun p b a out rest => rfl⟩

/-- C4: a chunk-processing step that observes the cancellation flag unset
appends the chunk's text to the accumulator (nothing when the chunk carries
no text: empty local token, absent or empty API delta) and emits exactly one
snapshot carrying the updated accumulator, then continues with the rest of
the stream, in both loops. -/
theorem respond_chunk_append :
    (∀ (hist : List (String × String)) (label response out : String)
        (rest : List (Bool × String)),
      localLoop hist label response ((false, out) :: rest) =
        Ev.snapshot (hist ++ [(label, response ++ out)]) ::
          localLoop hist label (response ++ out) rest) ∧
    (∀ (hist : List (String × String)) (label response : String)
        (rest : List (Bool × String)),
      localLoop hist label response ((false, "") :: rest) =
        Ev.snapshot (hist ++ [(label, response)]) ::
          localLoop hist label response rest) ∧
    (∀ (hist : List (String × String)) (label response : String)
        (chunk : Option String) (rest : List (Bool × Option String)),
      apiLoop hist label response ((false, chunk) :: rest) =
        Ev.snapshot (hist ++ [(label, response ++ chunkText chunk)]) ::
          apiLoop hist label (response ++ chunkText chunk) rest) ∧
    (∀ (hist : List (String × String)) (label response : String)
        (rest : List (Bool × Option String)),
      apiLoop hist label response ((false, none) :: rest) =
        Ev.snapshot (hist ++ [(label, response)]) ::
          apiLoop hist label response rest) := by
  refine ⟨fun hist label response out rest => rfl, ?_, ?_, ?_⟩
  · intro hist label response rest
    simp [localLoop, String.append_empty]
  · intro hist label response chunk rest
    rcases chunk with _ | t
    · simp [apiLoop, chunkText, String.append_empty]
    · by_cases ht : t = ""
      · subst ht
        simp [apiLoop, chunkText, String.append_empty]
      · simp [apiLoop, chunkText, ht]
  · intro hist label response rest
    rfl

/-- C6: the snapshot response texts of any `respond` call form an
append-monotone chain anchored at the fixed header block built from the
recommendation result: the first emitted text extends the header and every
later text extends the previous one. -/
theorem respond_snapshots_monotone (p : Provider) (b : Backend) (a : RespondArgs) :
    chainFrom
      (respondHeader a.track_name a.artist
        (spotify_rec p a.track_name a.artist a.client_id a.client_secret).1)
      (snapResponses (respond p b a)) := by
  unfold respond
  by_cases hl : a.use_local_model
  · by_cases hd : b.localDefined
    · simp only [hl, hd, if_true, snapResponses, List.append_eq, snapResponses_append,
        snapResponses_spot, List.nil_append]
      exact snapResponses_localLoop _ _ _ _
    · simp only [hl, hd, if_true, Bool.false_eq_true, if_false, List.append_eq,
        snapResponses_append, snapResponses_spot, List.nil_append, snapResponses,
        List.getLastD_concat, chainFrom]
      exact ⟨⟨localErrMsg, rfl⟩, trivial⟩
  · simp only [hl, Bool.false_eq_true, if_false, List.append_eq, snapResponses_append,
      snapResponses_spot, List.nil_append, snapResponses]
    exact snapResponses_apiLoop _ _ _ _

/-- C7: selecting the local model while the local pipeline symbol is
undefined makes `respond` append the configuration-error notice, increment
the failure counter, emit exactly one snapshot and terminate. -/
theorem respond_local_unconfigured (p : Provider) (b : Backend) (a : RespondArgs) :
    respond p { b with localDefined := false } { a with use_local_model := true } =
      Ev.userInteraction ::
        (spotify_rec p a.track_name a.artist a.client_id a.client_secret).2 ++
        [Ev.failedInc,
          Ev.snapshot ((a.history.getD []) ++
            [(chatLabel a.track_name a.artist,
              respondHeader a.track_name a.artist
                (spotify_rec p a.track_name a.artist a.client_id a.client_secret).1 ++
                localErrMsg)])] ∧
    snapCount
      (respond p { b with localDefined := false } { a with use_local_model := true }) = 1 := by
  refine ⟨rfl, ?_⟩
  have he : respond p { b with localDefined := false } { a with use_local_model := true } =
      Ev.userInteraction ::
        (spotify_rec p a.track_name a.artist a.client_id a.client_secret).2 ++
        [Ev.failedInc,
          Ev.snapshot ((a.history.getD []) ++
            [(chatLabel a.track_name a.artist,
              respondHeader a.track_name a.artist
                (spotify_rec p a.track_name a.artist a.client_id a.client_secret).1 ++
                localErrMsg)])] := rfl
  rw [he]
  simp [snapCount, snapCount_append, snapCount_spot]

/-- C8: every `spotify_rec` call increments exactly one of the success and
failure counters, by exactly one; every `respond` call increments the
user-interaction counter exactly once, and that increment is the first event
of the call. -/
theorem respond_metrics_discipline :
    (∀ (p : Provider) (track_name artist : String)
        (client_id client_secret : Option String),
      (countEv Ev.successInc (spotify_rec p track_name artist client_id client_secret).2 = 1 ∧
        countEv Ev.failedInc (spotify_rec p track_name artist client_id client_secret).2 = 0) ∨
      (countEv Ev.successInc (spotify_rec p track_name artist client_id client_secret).2 = 0 ∧
        countEv Ev.failedInc (spotify_rec p track_name artist client_id client_secret).2 = 1)) ∧
    (∀ (p : Provider) (b : Backend) (a : RespondArgs),
      countEv Ev.userInteraction (respond p b a) = 1 ∧
      (respond p b a).head? = some Ev.userInteraction) := by
  constructor
  · intro p track_name artist client_id client_secret
    rcases spotify_rec_trace_cases p track_name artist client_id client_secret with
      h | h | h | h
    · right; rw [h]; exact ⟨by decide, by decide⟩
    · right; rw [h]; exact ⟨by decide, by decide⟩
    · right; rw [h]; exact ⟨by decide, by decide⟩
    · left; rw [h]; exact ⟨by decide, by decide⟩
  · intro p b a
    refine ⟨?_, rfl⟩
    unfold respond
    by_cases hl : a.use_local_model
    · by_cases hd : b.localDefined
      · simp [hl, hd, countEv, countEv_append, countEv_ui_spot, countEv_ui_localLoop]
      · simp [hl, hd, countEv, countEv_append, countEv_ui_spot]
    · simp [hl, countEv, countEv_append, countEv_ui_spot, countEv_ui_apiLoop]

/-- C9: the requests-processed counter tracks successes only: each
`spotify_rec` call increments it exactly as often as the success counter, so
over any sequence of lookups the two totals agree; a concrete failing lookup
records a failure yet leaves the processed counter untouched. -/
theorem processed_counts_successes :
    (∀ (p : Provider) (track_name artist : String)
        (client_id client_secret : Option String),
      countEv Ev.processedInc (spotify_rec p track_name artist client_id client_secret).2 =
        countEv Ev.successInc (spotify_rec p track_name artist client_id client_secret).2) ∧
    (∀ L : List RecCall,
      countEv Ev.processedInc (L.flatMap recCallTrace) =
        countEv Ev.successInc (L.flatMap recCallTrace)) ∧
    countEv Ev.failedInc (recCallTrace ⟨sampleProvider, "Shape of You", "Ed Sheeran", none, none⟩) = 1 ∧
    countEv Ev.processedInc (recCallTrace ⟨sampleProvider, "Shape of You", "Ed Sheeran", none, none⟩) = 0 := by
  have hcall : ∀ (p : Provider) (track_name artist : String)
      (client_id client_secret : Option String),
      countEv Ev.processedInc (spotify_rec p track_name artist client_id client_secret).2 =
        countEv Ev.successInc (spotify_rec p track_name artist client_id client_secret).2 := by
    intro p track_name artist client_id client_secret
    rcases spotify_rec_trace_cases p track_name artist client_id client_secret with
      h | h | h | h <;> rw [h] <;> decide
  refine ⟨hcall, ?_, by decide, by decide⟩
  intro L
  induction L with
  | nil => rfl
  | cons c t ih =>
      rw [List.flatMap_cons, countEv_append, countEv_append, ih]
      unfold recCallTrace
      rw [hcall]

/-- C10: `cancel_inference` always sets the stop flag to true, any positive
number of iterated calls leaves it true, and a second call changes nothing:
the operation is idempotent and total (no error path exists). -/
theorem cancel_inference_idempotent :
    (∀ s, cancel_inference s = true) ∧
    (∀ n s, Nat.iterate cancel_inference (n + 1) s = true) ∧
    (∀ s, cancel_inference (cancel_inference s) = cancel_inference s) := by
  refine ⟨fun s => rfl, ?_, fun s => rfl⟩
  intro n
  induction n with
  | zero => intro s; rfl
  | succ k ih =>
      intro s
      rw [Function.iterate_succ_apply]
      exact ih _

end MLApp
